import Mathlib

/-!
Verification development for the `newredirect` repository.

The repository consists of `server.js` (an Express application: a bot-detection
middleware, the `/api/verify-human` score aggregator, the `/api/challenge` and
`/api/verify-pow` proof-of-work endpoints, and page/script serving) and
`au0cki7gbr.js` (the in-browser `AdvancedBotDetector` class).

This file gives a shallow embedding of that code in Lean.  Strings are modelled
with Lean `String`/`List Char` (string scanning is re-implemented structurally
over `List Char` so that concrete instances evaluate by `decide`), JavaScript
`Map`s are modelled as association lists with JavaScript `Map.set` semantics
(update in place, insert at the end), JavaScript numbers carrying fractional
scores become `ℚ`, timestamps become `Int` (milliseconds), and the external
library digests (`crypto.createHash(...)`, `md5`, `sha256`) are passed in as
function parameters, since their implementation is outside this repository.
Randomness (the random subdomain label, the `Math.random() < 0.01` sweep
triggers) is likewise passed in from outside: the subdomain label as a string
argument and each sweep trigger as a boolean argument.
-/

/-! ## Generic string helpers (structural re-implementations of scanning) -/

/-- Boolean test that `p` is an initial segment of `s` (over character lists). -/
def beginsWith : List Char → List Char → Bool
  | [], _ => true
  | _ :: _, [] => false
  | c :: cs, d :: ds => c == d && beginsWith cs ds

/-- Boolean substring test over character lists. -/
def containsChars : List Char → List Char → Bool
  | [], p => p.isEmpty
  | c :: rest, p => beginsWith p (c :: rest) || containsChars rest p

/-- Case-insensitive substring test: models a `/pattern/i` regex test for a
plain (literal) pattern, as used throughout `server.js`. -/
def containsCI (s p : String) : Bool :=
  containsChars (s.data.map Char.toLower) (p.data.map Char.toLower)

/-- Case-sensitive substring test: models a `/pattern/` regex test (no `i`
flag) for a plain pattern, as in `checkNavigatorInconsistencies`. -/
def containsCS (s p : String) : Bool :=
  containsChars s.data p.data

/-- Everything after the first occurrence of `p` in `s` (`[]` when `p` does not
occur).  Used to model a `/p.*q/` regex as: `q` occurs after some occurrence
of `p`. -/
def afterFirst : List Char → List Char → List Char
  | [], _ => []
  | c :: rest, p => if beginsWith p (c :: rest) then (c :: rest).drop p.length
                    else afterFirst rest p

/-- Case-insensitive test for a `/p.*q/i` regex with literal pieces `p`, `q`:
some occurrence of `p` is followed (anywhere later) by `q`. -/
def containsSeqCI (s p q : String) : Bool :=
  containsChars (afterFirst (s.data.map Char.toLower) (p.data.map Char.toLower))
    (q.data.map Char.toLower)

/-- Boolean test that `s` starts with the string `p` (structural replacement
for `String.startsWith`, which does not reduce in the kernel). -/
def strStarts (s p : String) : Bool :=
  beginsWith p.data s.data

/-- Boolean test that `s` ends with the string `p`. -/
def strEnds (s p : String) : Bool :=
  beginsWith p.data.reverse s.data.reverse

/-! ## Association lists with JavaScript `Map` semantics

`rateLimitStore` and `fingerprintStore` in `server.js` are `Map`s.  We model a
`Map` as a `List (String × α)`: `lookupEntry` is `Map.get`/`Map.has`, and
`setEntry` is `Map.set` (overwrite in place if the key exists, append
otherwise). -/

/-- Model of `Map.get` (and `Map.has`, via `Option.isSome`). -/
def lookupEntry {α : Type} : List (String × α) → String → Option α
  | [], _ => none
  | (k', v) :: rest, k => if k' = k then some v else lookupEntry rest k

/-- Model of `Map.set`: replaces the value at an existing key in place,
appends a fresh key at the end. -/
def setEntry {α : Type} : List (String × α) → String → α → List (String × α)
  | [], k, v => [(k, v)]
  | (k', v') :: rest, k, v =>
      if k' = k then (k, v) :: rest else (k', v') :: setEntry rest k v

/-! ## Bot-detection middleware (`server.js` lines 67-165)

A page request is modelled by its path, its user-agent header (defaulted to
`""` when absent, as `req.get('user-agent') || ''` does) and the resolved
client IP (`getClientIP` resolves it from forwarding headers; the resolution
itself is collaborator plumbing, so the model takes the resolved identity). -/

structure PageRequest where
  path : String
  userAgent : String
  clientIP : String
deriving Repr, DecidableEq

/-- Plain-literal user-agent patterns of the catalog (`server.js` lines
82-107); each is tested case-insensitively as a substring, modelling
`/Pattern/i.test(userAgent)`. -/
def botUAPlainPatterns : List String :=
  ["ProofPoint", "Mimecast", "Barracuda", "SafeRedirect",
   "EmailScanner", "MailScanner", "ATP",
   "IronPort", "FortiMail", "Sophos",
   "HeadlessChrome", "PhantomJS", "Nightmare",
   "Selenium", "WebDriver", "Puppeteer", "Playwright",
   "Cypress", "TestCafe", "ChromeDriver",
   "bot", "crawl", "spider", "scrape",
   "curl", "wget", "python-requests", "python-urllib",
   "node-fetch", "axios", "okhttp", "Apache-HttpClient",
   "Java/", "Go-http-client", "libwww-perl",
   "monitor", "validator", "preview",
   "uptime", "pingdom", "StatusCake"]

/-- Model of `botPatterns.some(pattern => pattern.test(userAgent))`: the plain
patterns, the word `check` (from `/check/i`), and the four `.*` patterns
`/Advanced.*Threat/i`, `/Link.*Scanner/i`, `/Security.*Scanner/i`,
`/URL.*Scanner/i`. -/
def isBotUA (ua : String) : Bool :=
  botUAPlainPatterns.any (fun p => containsCI ua p) ||
  containsCI ua "check" ||
  containsSeqCI ua "Advanced" "Threat" ||
  containsSeqCI ua "Link" "Scanner" ||
  containsSeqCI ua "Security" "Scanner" ||
  containsSeqCI ua "URL" "Scanner"

/-- Rate-limit window in milliseconds (`rateLimitWindow = 60000`). -/
def rateLimitWindow : Int := 60000

/-- Request ceiling per window (`maxRequests = 10`). -/
def maxRequests : Nat := 10

/-- One rate-limiter access for `ip` at time `now` (`server.js` lines
128-139).  Returns the updated store, the identity's resulting timestamp
sequence, and whether the rate-limit signal fired
(`requests.length > maxRequests`; on first sight of an identity the code sets
`[now]` without a ceiling check). -/
def rateAdmit (store : List (String × List Int)) (ip : String) (now : Int) :
    List (String × List Int) × List Int × Bool :=
  match lookupEntry store ip with
  | none => (setEntry store ip [now], [now], false)
  | some ts =>
      let requests := ts.filter (fun t => decide (now - t < rateLimitWindow)) ++ [now]
      (setEntry store ip requests, requests, decide (requests.length > maxRequests))

/-- Opportunistic rate-store sweep (`server.js` lines 142-151, body of the
`Math.random() < 0.01` branch): drop identities whose filtered sequence is
empty, keep the filtered sequence otherwise. -/
def sweepRateStore (store : List (String × List Int)) (now : Int) :
    List (String × List Int) :=
  store.filterMap (fun e =>
    let valid := e.2.filter (fun t => decide (now - t < rateLimitWindow))
    if valid.isEmpty then none else some (e.1, valid))

/-- The inert hard-block page (`server.js` line 156). -/
def inertBlockBody : String :=
  "<!DOCTYPE html><html><head><title>Page</title><meta name=\"robots\" content=\"noindex\"></head><body></body></html>"

/-- Paths the middleware skips entirely (`server.js` line 69): it returns
`next()` before setting `req.botScore`, leaving it undefined. -/
def middlewareSkips (path : String) : Bool :=
  strEnds path ".js" || strStarts path "/api/" || path == "/health"

/-- Server-side classification of one non-skipped request (`server.js` lines
73-139): the bot-UA signal (+60), the missing/short-UA signal (+50,
`!userAgent || userAgent.length < 5`, which with the defaulted empty string is
`length < 5`), and the rate-limit signal (+40). -/
def classifyRequest (req : PageRequest) (store : List (String × List Int))
    (now : Int) : Nat × List String × List (String × List Int) :=
  let uaHit := isBotUA req.userAgent
  let shortUA := decide (req.userAgent.length < 5)
  let (store1, _requests, rateHit) := rateAdmit store req.clientIP now
  ((if uaHit then 60 else 0) + (if shortUA then 50 else 0) +
     (if rateHit then 40 else 0),
   (if uaHit then ["bot-ua"] else []) ++ (if shortUA then ["missing-ua"] else []) ++
     (if rateHit then ["rate-limit-exceeded"] else []),
   store1)

/-- Outcome of the middleware for one request. -/
inductive MiddlewareOutcome where
  /-- Path skipped (`.js`, `/api/`, `/health`): `req.botScore` stays undefined. -/
  | skipped : MiddlewareOutcome
  /-- Hard-block short-circuit: an HTTP response is sent directly. -/
  | blocked (status : Nat) (body : String) : MiddlewareOutcome
  /-- Continue to the route with `req.botScore` and `req.botSignals` set. -/
  | proceed (botScore : Nat) (signals : List String) : MiddlewareOutcome
deriving Repr, DecidableEq

/-- The full middleware (`server.js` lines 67-165).  `sweep` is the outcome of
the `Math.random() < 0.01` draw.  A score `≥ 80` is answered with HTTP 200 and
the inert body (line 156). -/
def middleware (req : PageRequest) (store : List (String × List Int))
    (now : Int) (sweep : Bool) : MiddlewareOutcome × List (String × List Int) :=
  if middlewareSkips req.path then (.skipped, store)
  else
    let (score, signals, store1) := classifyRequest req store now
    let store2 := if sweep then sweepRateStore store1 now else store1
    if score ≥ 80 then (.blocked 200 inertBlockBody, store2)
    else (.proceed score signals, store2)

/-- Response of the page route, abstracted: either the middleware's inert
hard-block answer, or the real page (express default status 200) embedding the
client-detector script (`server.js` lines 430-441). -/
inductive PageOutcome where
  /-- Inert middleware response: no page, no detector script, no destination. -/
  | inert (status : Nat) (body : String) : PageOutcome
  /-- Normal page response carrying the detector script tag. -/
  | page (status : Nat) (scriptName : String) : PageOutcome
deriving Repr, DecidableEq

/-- HTTP status of a page outcome. -/
def PageOutcome.status : PageOutcome → Nat
  | .inert s _ => s
  | .page s _ => s

/-- Whether the outcome serves the client-detector script. -/
def PageOutcome.servesDetector : PageOutcome → Bool
  | .inert _ _ => false
  | .page _ _ => true

/-- `GET /` through the middleware (`server.js` lines 67-165 and 430-441):
blocked requests get the middleware's inert answer, everything else gets the
page (status 200) with the per-request random `scriptName`. -/
def servePage (req : PageRequest) (store : List (String × List Int)) (now : Int)
    (sweep : Bool) (scriptName : String) : PageOutcome × List (String × List Int) :=
  match middleware req store now sweep with
  | (.blocked st body, s) => (.inert st body, s)
  | (.proceed _ _, s) => (.page 200 scriptName, s)
  | (.skipped, s) => (.page 200 scriptName, s)

/-! ## Fingerprint ledger (`server.js` lines 209-241) -/

/-- One `fingerprintStore` record (`server.js` lines 224-229). -/
structure FingerprintRecord where
  ip : String
  count : Nat
  firstSeen : Int
  lastSeen : Int
deriving Repr, DecidableEq

/-- One observation of fingerprint hash `fpHash` from `ip` at time `now`
(`server.js` lines 213-230).  Returns the updated store, `isNew` (the hash was
not in the store), and `reusedFromDifferentIP` (`stored.ip !== clientIP`); the
stored record's `ip` field is never written on the update path. -/
def observeFingerprint (store : List (String × FingerprintRecord))
    (fpHash ip : String) (now : Int) :
    List (String × FingerprintRecord) × Bool × Bool :=
  match lookupEntry store fpHash with
  | some stored =>
      (setEntry store fpHash
        { stored with count := stored.count + 1, lastSeen := now },
       false, !(stored.ip == ip))
  | none =>
      (setEntry store fpHash ⟨ip, 1, now, now⟩, true, false)

/-- Staleness bound of the fingerprint sweep (`24 * 60 * 60 * 1000`). -/
def fingerprintMaxAge : Int := 24 * 60 * 60 * 1000

/-- Opportunistic fingerprint sweep (`server.js` lines 233-241, body of the
`Math.random() < 0.01` branch): drop records with `now - lastSeen > maxAge`. -/
def sweepFingerprintStore (store : List (String × FingerprintRecord))
    (now : Int) : List (String × FingerprintRecord) :=
  store.filter (fun e => decide (now - e.2.lastSeen ≤ fingerprintMaxAge))

/-! ## Verdict ladder and redirect construction (`server.js` lines 243-288) -/

/-- The verdict ladder (`server.js` lines 247-250). -/
def verdictOf (score : ℚ) : String :=
  if score ≥ 100 then "bot"
  else if score ≥ 80 then "likely-bot"
  else if score ≥ 50 then "suspicious"
  else "human"

/-- The `isBot` decision (`server.js` line 246): `totalScore >= 80`. -/
def isBotOf (score : ℚ) : Bool :=
  decide (score ≥ 80)

/-- A parsed URL, as much of the WHATWG `URL` object as the redirect
construction uses: scheme, host, path and query.  The model covers the
intended `http(s)://host[/path]` configuration targets; a string that does not
have such a shape fails to parse, modelling the `new URL(...)` throw. -/
structure ParsedURL where
  scheme : String
  host : String
  path : String
  query : String
deriving Repr, DecidableEq

/-- Splits `"scheme://rest"`; `none` when `"://"` does not occur. -/
def findSchemeSep : List Char → Option (List Char × List Char)
  | [] => none
  | ':' :: '/' :: '/' :: rest => some ([], rest)
  | c :: rest => (findSchemeSep rest).map (fun p => (c :: p.1, p.2))

/-- Splits host from path at the first `'/'`. -/
def splitHostPath : List Char → List Char × List Char
  | [] => ([], [])
  | '/' :: rest => ([], '/' :: rest)
  | c :: rest =>
      let (h, p) := splitHostPath rest
      (c :: h, p)

/-- Model of `new URL(s)` for `http(s)` targets; `none` models the constructor
throwing on a malformed target.  A missing path component becomes `"/"`, as in
the `URL` object. -/
def parseURL (s : String) : Option ParsedURL :=
  match findSchemeSep s.data with
  | none => none
  | some (schemeCs, rest) =>
      let scheme := schemeCs.asString
      if scheme = "http" ∨ scheme = "https" then
        let (hostCs, pathCs) := splitHostPath rest
        if hostCs.isEmpty then none
        else some ⟨scheme, hostCs.asString,
                   if pathCs.isEmpty then "/" else pathCs.asString, ""⟩
      else none

/-- Serialization of the parsed URL (`baseUrl.toString()`); the query is kept
verbatim as assigned (the client sends `window.location.search`, which already
carries its `?`). -/
def urlToString (u : ParsedURL) : String :=
  u.scheme ++ "://" ++ u.host ++ u.path ++ u.query

/-- The `urlParams` body field (`{path?, query?}`); `none` models an absent or
falsy field, as tested by `urlParams && urlParams.path`. -/
structure UrlParams where
  path : Option String
  query : Option String
deriving Repr, DecidableEq

/-- The in-`try` mutations of `server.js` lines 259-273: prepend the random
subdomain label to the host, then override path and query from `urlParams`
when provided and non-empty (truthy). -/
def cloakURL (base : ParsedURL) (sub : String) (urlParams : Option UrlParams) :
    ParsedURL :=
  let b := { base with host := sub ++ "." ++ base.host }
  match urlParams with
  | none => b
  | some u =>
      let b1 := match u.path with
        | some p => if p ≠ "" then { b with path := p } else b
        | none => b
      match u.query with
        | some q => if q ≠ "" then { b1 with query := q } else b1
        | none => b1

/-- Redirect-URL construction (`server.js` lines 255-280): `null` unless the
verdict allows and the configured target is set; on a parse failure the raw
configured target is returned unmodified (the `catch` branch). -/
def buildRedirect (redirectConfig : String) (sub : String)
    (urlParams : Option UrlParams) (isBot : Bool) : Option String :=
  if isBot = false ∧ redirectConfig ≠ "" then
    match parseURL redirectConfig with
    | some base => some (urlToString (cloakURL base sub urlParams))
    | none => some redirectConfig
  else none

/-! ## The `/api/verify-human` handler (`server.js` lines 168-289) -/

/-- The ground-truth `checks` object re-scored server-side.  A field the
client did not send is modelled by the enclosing `Option`. -/
structure Checks where
  cdp : Bool
  webdriver : Bool
  automationArtifacts : List String
  headlessSignals : List String
deriving Repr, DecidableEq

/-- Body of a `/api/verify-human` request.  `fingerprint` is the client's
fingerprint object in its serialized form (`JSON.stringify(fingerprint)` is
what the code hashes); `none` models an absent/falsy field. -/
structure VerifyHumanBody where
  fingerprint : Option String
  behaviors : Option Unit
  clientScore : Option ℚ
  checks : Option Checks
  urlParams : Option UrlParams
deriving DecidableEq

/-- Response of `/api/verify-human`. -/
inductive VHResponse where
  /-- `res.status(400).json({error})`. -/
  | badRequest (error : String) : VHResponse
  /-- `res.json({allowed, verdict, score, signals, redirectUrl})` (status 200). -/
  | ok (allowed : Bool) (verdict : String) (score : ℚ)
       (signals : List String) (redirectUrl : Option String) : VHResponse
deriving DecidableEq

/-- HTTP status of a `/api/verify-human` response. -/
def VHResponse.status : VHResponse → Nat
  | .badRequest _ => 400
  | .ok _ _ _ _ _ => 200

/-- Score field of an `ok` response. -/
def VHResponse.scoreField : VHResponse → Option ℚ
  | .badRequest _ => none
  | .ok _ _ s _ _ => some s

/-- Verdict field of an `ok` response. -/
def VHResponse.verdictField : VHResponse → Option String
  | .badRequest _ => none
  | .ok _ v _ _ _ => some v

/-- The `/api/verify-human` handler (`server.js` lines 168-289).  `md5` is the
external `crypto.createHash('md5')` hex digest; `reqBotScore`/`reqBotSignals`
are `req.botScore`/`req.botSignals` (undefined — `none` — when the middleware
skipped); `sub` is the random subdomain label drawn by
`generateRandomSubdomain()`, and `sweep` the `Math.random() < 0.01` draw. -/
def verifyHuman (md5 : String → String) (reqBotScore : Option Nat)
    (reqBotSignals : Option (List String)) (clientIP : String)
    (body : VerifyHumanBody) (fpStore : List (String × FingerprintRecord))
    (now : Int) (redirectConfig : String) (sub : String) (sweep : Bool) :
    VHResponse × List (String × FingerprintRecord) :=
  match body.fingerprint, body.behaviors with
  | some fp, some _ =>
      let cdpHit := (body.checks.map Checks.cdp).getD false
      let wdHit := (body.checks.map Checks.webdriver).getD false
      let aaHit := (body.checks.map
        (fun c => decide (c.automationArtifacts.length > 0))).getD false
      let hsHit := (body.checks.map
        (fun c => decide (c.headlessSignals.length ≥ 2))).getD false
      let baseScore : ℚ :=
        ((reqBotScore.getD 0 : Nat) : ℚ) + (body.clientScore.getD 0) * (1/2) +
          (if cdpHit then 60 else 0) + (if wdHit then 70 else 0) +
          (if aaHit then 65 else 0) + (if hsHit then 50 else 0)
      let baseSignals :=
        reqBotSignals.getD [] ++
          (if cdpHit then ["cdp-detected"] else []) ++
          (if wdHit then ["webdriver-detected"] else []) ++
          (if aaHit then ["automation-artifacts"] else []) ++
          (if hsHit then ["headless-browser"] else [])
      let fpHash := md5 fp
      let (store1, _isNew, reused) := observeFingerprint fpStore fpHash clientIP now
      let totalScore := baseScore + (if reused then 20 else 0)
      let signals := baseSignals ++ (if reused then ["fingerprint-reuse"] else [])
      let store2 := if sweep then sweepFingerprintStore store1 now else store1
      let isBot := isBotOf totalScore
      (VHResponse.ok (!isBot) (verdictOf totalScore) totalScore signals
        (buildRedirect redirectConfig sub body.urlParams isBot), store2)
  | _, _ => (VHResponse.badRequest "Missing required data", fpStore)

/-- Outcome of a full API request through the express chain: either the
middleware answered directly (its hard-block short-circuit), or the route
handler produced a response. -/
inductive ApiOutcome where
  /-- The middleware short-circuited with a raw HTML response. -/
  | short (status : Nat) (body : String) : ApiOutcome
  /-- The route handler ran and produced its JSON response. -/
  | api (resp : VHResponse) : ApiOutcome
deriving DecidableEq

/-- A `POST /api/verify-human` request as it enters the express chain: the
middleware (`app.use`, `server.js` line 67) runs first, then the route
handler.  The middleware's outcome decides what `req.botScore`/`req.botSignals`
the handler sees. -/
def handleVerifyHumanPost (md5 : String → String) (req : PageRequest)
    (body : VerifyHumanBody) (rateStore : List (String × List Int))
    (fpStore : List (String × FingerprintRecord)) (now : Int)
    (redirectConfig : String) (sub : String) (sweepRate sweepFp : Bool) :
    ApiOutcome × List (String × List Int) × List (String × FingerprintRecord) :=
  match middleware req rateStore now sweepRate with
  | (.skipped, rs) =>
      let (resp, fs) := verifyHuman md5 none none req.clientIP body fpStore now
        redirectConfig sub sweepFp
      (.api resp, rs, fs)
  | (.proceed sc sg, rs) =>
      let (resp, fs) := verifyHuman md5 (some sc) (some sg) req.clientIP body
        fpStore now redirectConfig sub sweepFp
      (.api resp, rs, fs)
  | (.blocked st b, rs) => (.short st b, rs, fpStore)

/-! ## The `/api/verify-pow` handler (`server.js` lines 305-326) -/

/-- Body of a `/api/verify-pow` request; `none` models an absent field. -/
structure PowBody where
  challenge : Option String
  nonce : Option String
  timestamp : Option Int
deriving Repr, DecidableEq

/-- Response of `/api/verify-pow`. -/
inductive PowResponse where
  /-- `res.status(400).json({error})`. -/
  | badRequest (error : String) : PowResponse
  /-- `res.json({valid[, reason]})` (status 200). -/
  | result (valid : Bool) (reason : Option String) : PowResponse
deriving Repr, DecidableEq

/-- HTTP status of a `/api/verify-pow` response. -/
def PowResponse.status : PowResponse → Nat
  | .badRequest _ => 400
  | .result _ _ => 200

/-- Model of `hash.startsWith('0000')` on the hex digest. -/
def hexStarts0000 (d : List Char) : Bool :=
  d.take 4 == ['0', '0', '0', '0']

/-- The `/api/verify-pow` handler (`server.js` lines 305-326).  `sha256hex` is
the external `crypto.createHash('sha256')` hex digest (as a character list);
`now` is `Date.now()` at verification time.  The guard on line 308 is
`!challenge || nonce === undefined || !timestamp`: a falsy (empty) challenge
and a falsy (zero) timestamp are rejected like missing ones, while only a
missing nonce is. -/
def verifyPow (sha256hex : String → List Char) (body : PowBody) (now : Int) :
    PowResponse :=
  match body.challenge, body.nonce, body.timestamp with
  | some c, some n, some t =>
      if c = "" ∨ t = 0 then .badRequest "Missing required data"
      else if now - t > 30000 then .result false (some "Challenge expired")
      else .result (hexStarts0000 (sha256hex (c ++ n))) none
  | _, _, _ => .badRequest "Missing required data"

/-! ## The client detector (`au0cki7gbr.js`, class `AdvancedBotDetector`)

The detector runs in the visitor's browser.  The browser environment is
modelled as a record of everything the checks inspect; a thrown JavaScript
exception is modelled with `Except String`.  Only the code paths that the
source wraps in `try`/`catch` (or guards with a null check) recover from a
missing capability: `getFontFingerprint` does neither, which is what claim C8
is about. -/

/-- `WEBGL_debug_renderer_info`-derived data (`getWebGLFingerprint`). -/
structure WebGLInfo where
  vendor : String
  renderer : String
  version : String
  shadingLanguageVersion : String
  extensionCount : Nat
deriving Repr, DecidableEq

/-- Audio-context data (`getAudioFingerprint`). -/
structure AudioInfo where
  sampleRate : ℚ
  state : String
  baseLatency : ℚ
  outputLatency : ℚ
deriving Repr, DecidableEq

/-- Display geometry (`getScreenFingerprint`). -/
structure ScreenInfo where
  width : Nat
  height : Nat
  availWidth : Nat
  availHeight : Nat
  colorDepth : Nat
  pixelDepth : Nat
  devicePixelRatio : ℚ
  orientation : Option String
deriving Repr, DecidableEq

/-- Declared browser properties (`getBrowserFingerprint`). -/
structure BrowserProps where
  userAgent : String
  platform : String
  language : String
  languages : Option (List String)
  cookieEnabled : Bool
  doNotTrack : Option String
  hardwareConcurrency : Nat
  deviceMemory : Option ℚ
  maxTouchPoints : Nat
  vendor : String
  vendorSub : String
  productSub : String
  timezone : String
  timezoneOffset : Int
deriving Repr, DecidableEq

/-- The browser environment a detection run observes.  `cdpSerialized` is the
observable side effect `detectCDP` exploits (the stack getter fired without an
explicit access); `canvas2dAvailable` is whether `canvas.getContext('2d')`
returns a context; `measureTextWidth` gives `ctx.measureText(testString).width`
for a given `ctx.font` string; `webglInfo` is `none` when there is no WebGL
context or no `WEBGL_debug_renderer_info` extension. -/
structure BrowserEnv where
  cdpSerialized : Bool
  webdriverFlag : Option Bool
  userAgent : String
  hasChromeObject : Bool
  pluginsLength : Nat
  mimeTypesLength : Nat
  languages : Option (List String)
  language : String
  hasCallPhantom : Bool
  hasPhantomVar : Bool
  hasPermissionsAPI : Bool
  platform : String
  hardwareConcurrency : Nat
  deviceMemory : Option ℚ
  vendor : String
  hasSeleniumRecorder : Bool
  hasSeleniumAttr : Bool
  hasDriverAttr : Bool
  hasCdcArray : Bool
  hasCdcPromise : Bool
  hasCdcSymbol : Bool
  hasPlaywrightGlobal : Bool
  hasPwManual : Bool
  hasPwInspect : Bool
  hasNightmareGlobal : Bool
  canvas2dAvailable : Bool
  canvasDataURL : String
  webglInfo : Option WebGLInfo
  audioContextAvailable : Bool
  audioInfo : AudioInfo
  measureTextWidth : String → ℚ
  screenInfo : ScreenInfo
  cookieEnabled : Bool
  doNotTrack : Option String
  maxTouchPoints : Nat
  vendorSub : String
  productSub : String
  timezone : String
  timezoneOffset : Int

/-- Detector configuration with the constructor defaults
(`au0cki7gbr.js` lines 8-17). -/
structure DetectorConfig where
  cdpWeight : Nat := 50
  behaviorWeight : Nat := 40
  fingerprintWeight : Nat := 30
  timingWeight : Nat := 25
  navigatorWeight : Nat := 20
  threshold : Nat := 70
  behaviorTimeout : Nat := 3000
deriving Repr, DecidableEq

/-- The `this.checks` object as filled by a completed run (the fire-and-forget
`checkPermissionsAsync` result is not part of the synchronous run and is not
modelled). -/
structure ClientChecks where
  cdp : Bool
  webdriver : Bool
  headlessSignals : List String
  navigatorIssues : List String
  automationArtifacts : List String
  behaviorScore : Nat
deriving Repr, DecidableEq

/-- The `this.behaviors` flags; behaviour tracking was removed from the
source, so a run leaves all of them at their `false` defaults. -/
structure Behaviors where
  mouseMove : Bool := false
  click : Bool := false
  scroll : Bool := false
  keyboard : Bool := false
  touch : Bool := false
deriving Repr, DecidableEq

/-- The composite fingerprint (`generateFingerprint`). -/
structure Fingerprint where
  canvas : Option String
  webgl : Option WebGLInfo
  audio : Option AudioInfo
  fonts : List String
  screen : ScreenInfo
  browser : BrowserProps
deriving Repr, DecidableEq

/-- Coercion of a JavaScript 32-bit bitwise result back to a signed double
(`hash & hash` truncates to int32). -/
def toInt32 (n : Int) : Int :=
  (n + 2 ^ 31) % 2 ^ 32 - 2 ^ 31

/-- Base-36 rendering of an integer (`hash.toString(36)`). -/
def toBase36 (n : Int) : String :=
  if n < 0 then "-" ++ (Nat.toDigits 36 n.natAbs).asString
  else (Nat.toDigits 36 n.natAbs).asString

/-- The `simpleHash` helper (`au0cki7gbr.js` lines 476-484):
`hash = ((hash << 5) - hash) + charCode` with int32 truncation, then base 36.
Characters are modelled by code points (the source reads UTF-16 units; they
agree on the Basic Multilingual Plane). -/
def simpleHash (s : String) : String :=
  toBase36 (s.data.foldl
    (fun hash c => toInt32 (toInt32 (hash * 32) - hash + (c.toNat : Int))) 0)

/-- `detectCDP` (lines 64-90): records whether the diagnostic serialization
fired and returns the flag; contributes `cdpWeight` when set. -/
def detectCDP (env : BrowserEnv) : Bool :=
  env.cdpSerialized

/-- `detectWebDriver` (lines 95-103): `navigator.webdriver === true`. -/
def detectWebDriver (env : BrowserEnv) : Bool :=
  env.webdriverFlag == some true

/-- `detectHeadless` (lines 108-153): the ordered headless-signal list.  The
`permissions` branch only fires an unawaited async check and contributes
nothing to the synchronous run. -/
def detectHeadless (env : BrowserEnv) : List String :=
  (if containsCI env.userAgent "HeadlessChrome" then ["headless-ua"] else []) ++
  (if !env.hasChromeObject && containsCI env.userAgent "Chrome" then
      ["missing-chrome-object"] else []) ++
  (if env.pluginsLength == 0 then ["no-plugins"] else []) ++
  (if env.mimeTypesLength == 0 then ["no-mimetypes"] else []) ++
  (if env.languages = none ∨ env.languages = some [] then ["no-languages"] else []) ++
  (if env.hasCallPhantom || env.hasPhantomVar then ["phantomjs"] else [])

/-- `checkNavigatorInconsistencies` (lines 176-219): the ordered issue list.
The platform/vendor regex tests are case-sensitive in the source. -/
def checkNavigatorInconsistencies (env : BrowserEnv) : List String :=
  let uaPlatform :=
    if containsCS env.userAgent "Win" then "Win32"
    else if containsCS env.userAgent "Mac" then "MacIntel"
    else if containsCS env.userAgent "Linux" then "Linux x86_64"
    else ""
  let expectedVendor :=
    if containsCS env.userAgent "Chrome" then "Google Inc."
    else if containsCS env.userAgent "Safari" ∧ ¬ (containsCS env.userAgent "Chrome" = true)
      then "Apple Computer, Inc."
    else ""
  (if uaPlatform ≠ "" ∧ env.platform ≠ uaPlatform then ["platform-mismatch"] else []) ++
  (if env.language ≠ "" ∧ (∃ ls, env.languages = some ls ∧ env.language ∉ ls) then
      ["language-mismatch"] else []) ++
  (if env.hardwareConcurrency > 32 ∨ env.hardwareConcurrency = 0 then
      ["suspicious-cpu"] else []) ++
  (if ∃ d, env.deviceMemory = some d ∧ d ≠ 0 ∧ (d > 32 ∨ d < 1/4) then
      ["suspicious-memory"] else []) ++
  (if expectedVendor ≠ "" ∧ env.vendor ≠ expectedVendor then
      ["vendor-mismatch"] else [])

/-- `checkAutomationArtifacts` (lines 224-265): the ordered artifact list. -/
def checkAutomationArtifacts (env : BrowserEnv) : List String :=
  (if env.hasSeleniumRecorder || env.hasSeleniumAttr || env.hasDriverAttr then
      ["selenium"] else []) ++
  (if env.hasCdcArray || env.hasCdcPromise || env.hasCdcSymbol then
      ["chrome-automation"] else []) ++
  (if env.webdriverFlag = none ∧ containsCS env.userAgent "HeadlessChrome" = true then
      ["puppeteer"] else []) ++
  (if env.hasPlaywrightGlobal || env.hasPwManual || env.hasPwInspect then
      ["playwright"] else []) ++
  (if env.hasNightmareGlobal then ["nightmare"] else [])

/-- `getCanvasFingerprint` (lines 294-322): the whole body is inside
`try`/`catch` and additionally null-checks the context, so a missing 2d
context yields `null`, never a throw. -/
def getCanvasFingerprint (env : BrowserEnv) : Option String :=
  if env.canvas2dAvailable then some (simpleHash env.canvasDataURL) else none

/-- `getWebGLFingerprint` (lines 327-348): `try`/`catch` plus null checks;
`none` models every recovered failure path. -/
def getWebGLFingerprint (env : BrowserEnv) : Option WebGLInfo :=
  env.webglInfo

/-- `getAudioFingerprint` (lines 353-371): `try`/`catch` plus a null check on
the AudioContext constructor. -/
def getAudioFingerprint (env : BrowserEnv) : Option AudioInfo :=
  if env.audioContextAvailable then some env.audioInfo else none

/-- The base generic families (`getFontFingerprint` line 377). -/
def baseFonts : List String := ["monospace", "sans-serif", "serif"]

/-- The candidate fonts (`getFontFingerprint` lines 378-382). -/
def testFonts : List String :=
  ["Arial", "Verdana", "Times New Roman", "Courier New",
   "Georgia", "Palatino", "Garamond", "Comic Sans MS",
   "Trebuchet MS", "Impact"]

/-- `getFontFingerprint` (lines 376-411).  Unlike its three siblings it has
no `try`/`catch` and no null check: when `canvas.getContext('2d')` returns
`null`, the very first `ctx.font = ...` assignment throws a `TypeError`,
modelled by the `Except.error` branch. -/
def getFontFingerprint (env : BrowserEnv) : Except String (List String) :=
  if env.canvas2dAvailable then
    .ok (testFonts.foldl (fun acc font =>
      baseFonts.foldl (fun acc2 baseFont =>
        if env.measureTextWidth ("72px " ++ font ++ ", " ++ baseFont)
            ≠ env.measureTextWidth ("72px " ++ baseFont) then
          if font ∈ acc2 then acc2 else acc2 ++ [font]
        else acc2) acc) [])
  else
    .error "TypeError: ctx is null"

/-- `getScreenFingerprint` (lines 416-427). -/
def getScreenFingerprint (env : BrowserEnv) : ScreenInfo :=
  env.screenInfo

/-- `getBrowserFingerprint` (lines 432-449). -/
def getBrowserFingerprint (env : BrowserEnv) : BrowserProps :=
  ⟨env.userAgent, env.platform, env.language, env.languages, env.cookieEnabled,
   env.doNotTrack, env.hardwareConcurrency, env.deviceMemory,
   env.maxTouchPoints, env.vendor, env.vendorSub, env.productSub, env.timezone,
   env.timezoneOffset⟩

/-- `generateFingerprint` (lines 270-289): builds the composite fingerprint
and adds the +15 missing-capability penalty.  The font component is the only
sub-check whose failure is not recovered, so its exception propagates. -/
def generateFingerprint (env : BrowserEnv) :
    Except String (Fingerprint × Nat) :=
  match getFontFingerprint env with
  | .error e => .error e
  | .ok fonts =>
      let fp : Fingerprint :=
        ⟨getCanvasFingerprint env, getWebGLFingerprint env,
         getAudioFingerprint env, fonts, getScreenFingerprint env,
         getBrowserFingerprint env⟩
      .ok (fp, if fp.canvas = none ∨ fp.webgl = none then 15 else 0)

/-- Result of a completed `detect()` run (lines 52-58). -/
structure DetectResult where
  isBot : Bool
  score : Nat
  checks : ClientChecks
  behaviors : Behaviors
  fingerprint : Fingerprint
deriving Repr, DecidableEq

/-- `detect()` (lines 36-59): runs the immediate checks, then the
fingerprinting, then `calculateScore` (which only zeroes
`checks.behaviorScore`).  There is no `try`/`catch` anywhere on this path, so
an exception in `generateFingerprint` rejects the whole run. -/
def detect (cfg : DetectorConfig) (env : BrowserEnv) :
    Except String DetectResult :=
  let cdp := detectCDP env
  let s1 := if cdp then cfg.cdpWeight else 0
  let wd := detectWebDriver env
  let s2 := if wd then 45 else 0
  let hs := detectHeadless env
  let s3 := if hs.length > 0 then min (hs.length * 15) 45 else 0
  let ni := checkNavigatorInconsistencies env
  let s4 := if ni.length > 0 then min (ni.length * 10) cfg.navigatorWeight else 0
  let aa := checkAutomationArtifacts env
  let s5 := if aa.length > 0 then 50 else 0
  match generateFingerprint env with
  | .error e => .error e
  | .ok (fp, s6) =>
      let score := s1 + s2 + s3 + s4 + s5 + s6
      .ok ⟨decide (score ≥ cfg.threshold), score,
           ⟨cdp, wd, hs, ni, aa, 0⟩, {}, fp⟩

/-! ## Auxiliary definitions for the claims -/

/-- Score field of a full API outcome (`none` for a middleware
short-circuit). -/
def ApiOutcome.scoreField : ApiOutcome → Option ℚ
  | .short _ _ => none
  | .api resp => resp.scoreField

/-- Count of leading `'0'` hex digits of a digest (the spec's "leading zero
hex digits"). -/
def leadingZeros : List Char → Nat
  | [] => 0
  | c :: rest => if c = '0' then leadingZeros rest + 1 else 0

/-- Well-formedness of one ledger record: the spec's invariant
`occurrenceCount ≥ 1 ∧ lastSeen ≥ firstSeen`. -/
def recordWF (r : FingerprintRecord) : Prop :=
  1 ≤ r.count ∧ r.firstSeen ≤ r.lastSeen

/-- Well-formedness of the ledger at time `now`: every record is well formed
and was last seen no later than `now` (time only moves forward). -/
def fpStoreWF (s : List (String × FingerprintRecord)) (now : Int) : Prop :=
  ∀ e ∈ s, recordWF e.2 ∧ e.2.lastSeen ≤ now

/-- Hex-digit test for the lowercase hex alphabet produced by
`crypto.randomBytes(6).toString('hex')`. -/
def isHexDigitChar (c : Char) : Bool :=
  ('0' ≤ c && c ≤ '9') || ('a' ≤ c && c ≤ 'f')

/-- A browser environment whose `canvas.getContext('2d')` returns `null`
(e.g. a stripped/headless build without canvas rasterization); all other
capabilities are unremarkable. -/
def nullCanvasEnv : BrowserEnv where
  cdpSerialized := false
  webdriverFlag := some false
  userAgent := "Mozilla/5.0"
  hasChromeObject := true
  pluginsLength := 3
  mimeTypesLength := 2
  languages := some ["en-US"]
  language := "en-US"
  hasCallPhantom := false
  hasPhantomVar := false
  hasPermissionsAPI := true
  platform := "MacIntel"
  hardwareConcurrency := 8
  deviceMemory := some 8
  vendor := "Apple Computer, Inc."
  hasSeleniumRecorder := false
  hasSeleniumAttr := false
  hasDriverAttr := false
  hasCdcArray := false
  hasCdcPromise := false
  hasCdcSymbol := false
  hasPlaywrightGlobal := false
  hasPwManual := false
  hasPwInspect := false
  hasNightmareGlobal := false
  canvas2dAvailable := false
  canvasDataURL := ""
  webglInfo := none
  audioContextAvailable := true
  audioInfo := ⟨44100, "running", 0, 0⟩
  measureTextWidth := fun _ => 0
  screenInfo := ⟨1440, 900, 1440, 877, 30, 30, 2, some "landscape-primary"⟩
  cookieEnabled := true
  doNotTrack := none
  maxTouchPoints := 0
  vendorSub := ""
  productSub := "20030107"
  timezone := "UTC"
  timezoneOffset := 0

/-! ## Helper lemmas for the claims -/

theorem lookupEntry_setEntry_self {α : Type} (s : List (String × α)) (k : String) (v : α) :
    lookupEntry (setEntry s k v) k = some v := by
  induction s with
  | nil => simp [setEntry, lookupEntry]
  | cons e rest ih =>
      obtain ⟨k', v'⟩ := e
      by_cases h : k' = k
      · simp [setEntry, h, lookupEntry]
      · simp [setEntry, h, lookupEntry, ih]

theorem mem_setEntry {α : Type} (s : List (String × α)) (k : String) (v : α)
    (e : String × α) : e ∈ setEntry s k v → e = (k, v) ∨ e ∈ s := by
  induction s with
  | nil => intro he; simpa [setEntry] using he
  | cons e' rest ih =>
      obtain ⟨k', v'⟩ := e'
      intro he
      by_cases h : k' = k
      · rw [show setEntry ((k', v') :: rest) k v = (k, v) :: rest by
              simp [setEntry, h]] at he
        rcases List.mem_cons.mp he with h1 | h1
        · exact Or.inl h1
        · exact Or.inr (List.mem_cons_of_mem _ h1)
      · rw [show setEntry ((k', v') :: rest) k v = (k', v') :: setEntry rest k v by
              simp [setEntry, h]] at he
        rcases List.mem_cons.mp he with h1 | h1
        · exact Or.inr (by simp [h1])
        · rcases ih h1 with h2 | h2
          · exact Or.inl h2
          · exact Or.inr (List.mem_cons_of_mem _ h2)

theorem lookupEntry_mem {α : Type} (s : List (String × α)) (k : String) (v : α) :
    lookupEntry s k = some v → (k, v) ∈ s := by
  induction s with
  | nil => intro h; simp [lookupEntry] at h
  | cons e rest ih =>
      obtain ⟨k', v'⟩ := e
      intro h
      simp only [lookupEntry] at h
      by_cases hk : k' = k
      · rw [if_pos hk] at h
        obtain rfl := Option.some.inj h
        subst hk
        exact List.mem_cons_self _ _
      · rw [if_neg hk] at h
        exact List.mem_cons_of_mem _ (ih h)

/-- The code's `hash.startsWith('0000')` is exactly "at least 4 leading zero
hex digits". -/
theorem hexStarts0000_iff (d : List Char) :
    hexStarts0000 d = true ↔ 4 ≤ leadingZeros d := by
  rcases d with _ | ⟨a, _ | ⟨b, _ | ⟨c, _ | ⟨e, rest⟩⟩⟩⟩
  · simp [hexStarts0000, leadingZeros]
  · by_cases ha : a = '0' <;> simp [hexStarts0000, leadingZeros, ha]
  · by_cases ha : a = '0' <;> by_cases hb : b = '0' <;>
      simp [hexStarts0000, leadingZeros, ha, hb]
  · by_cases ha : a = '0' <;> by_cases hb : b = '0' <;> by_cases hc : c = '0' <;>
      simp [hexStarts0000, leadingZeros, ha, hb, hc]
  · by_cases ha : a = '0' <;> by_cases hb : b = '0' <;> by_cases hc : c = '0' <;>
      by_cases he : e = '0' <;>
      simp [hexStarts0000, leadingZeros, ha, hb, hc, he]

/-! ## Claims -/

/-- C5: for a proof-of-work submission whose fields pass the presence guard,
`/api/verify-pow` answers `valid = true` iff the SHA-256 hex digest of
`challenge ++ nonce` has at least 4 leading zero hex digits and
`now - timestamp ≤ 30000`; when `now - timestamp > 30000` the answer is
`{valid: false, reason: "Challenge expired"}` regardless of the digest; and
any timestamp at most 30 s in the past — future ones included — passes the
freshness check and the digest alone decides. -/
theorem verifyPow_valid_iff (sha256hex : String → List Char) (c n : String)
    (t now : Int) (hc : c ≠ "") (ht : t ≠ 0) :
    (verifyPow sha256hex ⟨some c, some n, some t⟩ now = .result true none ↔
      4 ≤ leadingZeros (sha256hex (c ++ n)) ∧ now - t ≤ 30000) ∧
    (now - t > 30000 → verifyPow sha256hex ⟨some c, some n, some t⟩ now =
      .result false (some "Challenge expired")) ∧
    (now - t ≤ 30000 → verifyPow sha256hex ⟨some c, some n, some t⟩ now =
      .result (hexStarts0000 (sha256hex (c ++ n))) none) := by
  have hguard : ¬ (c = "" ∨ t = 0) := by simp [hc, ht]
  unfold verifyPow
  simp only []
  rw [if_neg hguard]
  by_cases hexp : now - t > 30000
  · rw [if_pos hexp]
    refine ⟨?_, fun _ => rfl, fun h => absurd hexp (by omega)⟩
    constructor
    · intro h; simp at h
    · rintro ⟨_, h2⟩; omega
  · rw [if_neg hexp]
    refine ⟨?_, fun h => absurd h hexp, fun _ => rfl⟩
    simp [PowResponse.result.injEq, hexStarts0000_iff]
    intro; omega

/-- Witness for C5: a digest oracle answering `0000…` makes a fresh
submission valid. -/
theorem verifyPow_valid_iff_witness :
    verifyPow (fun _ => ['0', '0', '0', '0']) ⟨some "c", some "n", some 1⟩ 100 =
      .result true none :=
  (verifyPow_valid_iff (fun _ => ['0', '0', '0', '0']) "c" "n" 1 100
    (by decide) (by decide)).1.mpr ⟨by decide, by decide⟩

/-- C6: each rate-limiter access for a known identity appends `now`, evicts
entries older than the 60 s window, and compares the resulting length against
the ceiling 10; an identity with 10 in-window timestamps gets count 11 (> 10)
and the signal on its 11th call, which adds 40 to the classifier score and
the `rate-limit-exceeded` signal; an identity whose whole window has elapsed
gets count exactly 1 and no signal. -/
theorem rateAdmit_sliding_window (store : List (String × List Int)) (ip : String)
    (ts : List Int) (now : Int) (h : lookupEntry store ip = some ts) :
    ((rateAdmit store ip now).2.1 =
        ts.filter (fun t => decide (now - t < rateLimitWindow)) ++ [now]) ∧
    ((rateAdmit store ip now).2.2 =
        decide ((rateAdmit store ip now).2.1.length > maxRequests)) ∧
    ((rateAdmit store ip now).1 = setEntry store ip (rateAdmit store ip now).2.1) ∧
    (ts.length = 10 → (∀ t ∈ ts, now - t < rateLimitWindow) →
      (rateAdmit store ip now).2.1.length = 11 ∧ (rateAdmit store ip now).2.2 = true) ∧
    ((∀ t ∈ ts, now - t ≥ rateLimitWindow) →
      (rateAdmit store ip now).2.1.length = 1 ∧ (rateAdmit store ip now).2.2 = false) ∧
    (∀ req store2 now2, (rateAdmit store2 (PageRequest.clientIP req) now2).2.2 = true →
      "rate-limit-exceeded" ∈ (classifyRequest req store2 now2).2.1 ∧
      (classifyRequest req store2 now2).1 =
        (if isBotUA req.userAgent then 60 else 0) +
        (if decide (req.userAgent.length < 5) = true then 50 else 0) + 40) := by
  have hr : rateAdmit store ip now =
      (setEntry store ip (ts.filter (fun t => decide (now - t < rateLimitWindow)) ++ [now]),
       ts.filter (fun t => decide (now - t < rateLimitWindow)) ++ [now],
       decide ((ts.filter (fun t => decide (now - t < rateLimitWindow)) ++ [now]).length
         > maxRequests)) := by
    simp [rateAdmit, h]
  refine ⟨by rw [hr], by rw [hr], by rw [hr], ?_, ?_, ?_⟩
  · intro hlen hin
    have hfull : ts.filter (fun t => decide (now - t < rateLimitWindow)) = ts :=
      List.filter_eq_self.mpr (fun t ht => by simpa using hin t ht)
    rw [hr]
    simp only [hfull, List.length_append, hlen, List.length_singleton]
    exact ⟨trivial, by decide⟩
  · intro hout
    have hnil : ts.filter (fun t => decide (now - t < rateLimitWindow)) = [] := by
      rw [List.filter_eq_nil_iff]
      intro t ht
      have := hout t ht
      simp only [decide_eq_true_eq]
      omega
    rw [hr]
    simp only [hnil, List.nil_append, List.length_singleton]
    exact ⟨trivial, by decide⟩
  · intro req store2 now2 hflag
    rcases hra : rateAdmit store2 req.clientIP now2 with ⟨s1, reqs, flag⟩
    rw [hra] at hflag
    simp only at hflag
    subst hflag
    constructor
    · simp [classifyRequest, hra]
    · simp [classifyRequest, hra]

/-- Witness for C6: ten in-window timestamps, the eleventh call flags. -/
theorem rateAdmit_sliding_window_witness :
    (rateAdmit [("1.2.3.4", [0, 1, 2, 3, 4, 5, 6, 7, 8, 9])] "1.2.3.4" 10).2.1.length = 11 ∧
    (rateAdmit [("1.2.3.4", [0, 1, 2, 3, 4, 5, 6, 7, 8, 9])] "1.2.3.4" 10).2.2 = true :=
  (rateAdmit_sliding_window [("1.2.3.4", [0, 1, 2, 3, 4, 5, 6, 7, 8, 9])] "1.2.3.4"
    [0, 1, 2, 3, 4, 5, 6, 7, 8, 9] 10 (by decide)).2.2.2.1 (by decide) (by decide)

/-- C7: an update of an existing ledger record increments the count, sets
`lastSeen` to now, keeps `ip` and `firstSeen` untouched, reports
`isNew = false` and raises reuse exactly when the owning IP differs; every
record of an updated well-formed ledger stays well formed
(`count ≥ 1`, `lastSeen ≥ firstSeen`); observing a hash first from `A` and
then from `B ≠ A` keeps the record owned by `A` with count 2, is not new, and
raises the reuse flag, while a second observation from `A` raises nothing. -/
theorem observeFingerprint_ledger (store : List (String × FingerprintRecord))
    (h A B : String) (now1 now2 : Int) :
    (∀ r, lookupEntry store h = some r →
      observeFingerprint store h B now2 =
        (setEntry store h ⟨r.ip, r.count + 1, r.firstSeen, now2⟩, false,
         !(r.ip == B))) ∧
    (fpStoreWF store now2 →
      ∀ e ∈ (observeFingerprint store h B now2).1, recordWF e.2) ∧
    (lookupEntry store h = none → A ≠ B →
      (observeFingerprint store h A now1).2.1 = true ∧
      (observeFingerprint store h A now1).2.2 = false ∧
      lookupEntry (observeFingerprint store h A now1).1 h = some ⟨A, 1, now1, now1⟩ ∧
      (observeFingerprint (observeFingerprint store h A now1).1 h B now2).2.1 = false ∧
      (observeFingerprint (observeFingerprint store h A now1).1 h B now2).2.2 = true ∧
      lookupEntry (observeFingerprint (observeFingerprint store h A now1).1 h B now2).1 h
        = some ⟨A, 2, now1, now2⟩) ∧
    (lookupEntry store h = none →
      (observeFingerprint (observeFingerprint store h A now1).1 h A now2).2.1 = false ∧
      (observeFingerprint (observeFingerprint store h A now1).1 h A now2).2.2 = false) := by
  refine ⟨?_, ?_, ?_, ?_⟩
  · intro r hr
    simp [observeFingerprint, hr]
  · intro hwf e he
    rcases hlook : lookupEntry store h with _ | r
    · simp only [observeFingerprint, hlook] at he
      rcases mem_setEntry _ _ _ _ he with h1 | h1
      · rw [h1]
        exact ⟨Nat.le_refl 1, le_refl now2⟩
      · exact (hwf e h1).1
    · simp only [observeFingerprint, hlook] at he
      rcases mem_setEntry _ _ _ _ he with h1 | h1
      · rw [h1]
        have hmem := lookupEntry_mem store h r hlook
        have hw := hwf (h, r) hmem
        exact ⟨Nat.le_succ_of_le hw.1.1, le_trans hw.1.2 hw.2⟩
      · exact (hwf e h1).1
  · intro hnone hAB
    have h1 : observeFingerprint store h A now1 =
        (setEntry store h ⟨A, 1, now1, now1⟩, true, false) := by
      simp [observeFingerprint, hnone]
    have hl1 : lookupEntry (setEntry store h ⟨A, 1, now1, now1⟩) h =
        some ⟨A, 1, now1, now1⟩ := lookupEntry_setEntry_self _ _ _
    have h2 : observeFingerprint (setEntry store h ⟨A, 1, now1, now1⟩) h B now2 =
        (setEntry (setEntry store h ⟨A, 1, now1, now1⟩) h ⟨A, 2, now1, now2⟩, false,
         !(A == B)) := by
      simp [observeFingerprint, hl1]
    refine ⟨by rw [h1], by rw [h1], by rw [h1]; exact hl1, ?_, ?_, ?_⟩
    · rw [h1]
      simp only [h2]
    · rw [h1]
      simp only [h2]
      simp [hAB]
    · rw [h1]
      simp only [h2]
      exact lookupEntry_setEntry_self _ _ _
  · intro hnone
    have h1 : observeFingerprint store h A now1 =
        (setEntry store h ⟨A, 1, now1, now1⟩, true, false) := by
      simp [observeFingerprint, hnone]
    have hl1 : lookupEntry (setEntry store h ⟨A, 1, now1, now1⟩) h =
        some ⟨A, 1, now1, now1⟩ := lookupEntry_setEntry_self _ _ _
    have h2 : observeFingerprint (setEntry store h ⟨A, 1, now1, now1⟩) h A now2 =
        (setEntry (setEntry store h ⟨A, 1, now1, now1⟩) h ⟨A, 2, now1, now2⟩, false,
         !(A == A)) := by
      simp [observeFingerprint, hl1]
    rw [h1]
    simp only [h2]
    simp

/-- Witness for C7: hash seen from `1.1.1.1`, then from `2.2.2.2`: not new,
flagged as reuse, still owned by `1.1.1.1`. -/
theorem observeFingerprint_ledger_witness :
    (observeFingerprint (observeFingerprint [] "H" "1.1.1.1" 3).1 "H" "2.2.2.2" 7).2.2 = true ∧
    lookupEntry (observeFingerprint (observeFingerprint [] "H" "1.1.1.1" 3).1 "H" "2.2.2.2" 7).1 "H"
      = some ⟨"1.1.1.1", 2, 3, 7⟩ := by
  have := (observeFingerprint_ledger [] "H" "1.1.1.1" "2.2.2.2" 3 7).2.2.1
    (by decide) (by decide)
  exact ⟨this.2.2.2.2.1, this.2.2.2.2.2⟩

/-- C8: the claim that a throwing individual check is isolated fails on the
code.  `getFontFingerprint` is the one check with neither a `try`/`catch` nor
a null check on the 2d context, so in an environment without a canvas 2d
context its `TypeError` propagates through `generateFingerprint` and
`detect()` rejects: no score, no recorded failure, no result at all. -/
theorem detect_aborts_on_null_canvas : detect {} nullCanvasEnv =
    Except.error "TypeError: ctx is null" := rfl

/-- C4: for every non-skipped page request, the served status is 200 whether
or not the hard-block fired (the status carries no oracle); and when the
server-side score reaches 80 the chain stops with the fixed inert body — a
constant that carries no destination and no error detail — and the detector
script is never served. -/
theorem hardBlock_inert (req : PageRequest) (store : List (String × List Int))
    (now : Int) (sweep : Bool) (scriptName : String)
    (hskip : middlewareSkips req.path = false) :
    (servePage req store now sweep scriptName).1.status = 200 ∧
    ((classifyRequest req store now).1 ≥ 80 →
      (servePage req store now sweep scriptName).1 = .inert 200 inertBlockBody ∧
      (servePage req store now sweep scriptName).1.servesDetector = false) := by
  rcases hc : classifyRequest req store now with ⟨score, signals, store1⟩
  by_cases h80 : score ≥ 80
  · have hm : middleware req store now sweep = (.blocked 200 inertBlockBody,
        if sweep then sweepRateStore store1 now else store1) := by
      simp [middleware, hskip, hc, h80]
    exact ⟨by simp [servePage, hm, PageOutcome.status],
      fun _ => ⟨by simp [servePage, hm],
        by simp [servePage, hm, PageOutcome.servesDetector]⟩⟩
  · have hm : middleware req store now sweep = (.proceed score signals,
        if sweep then sweepRateStore store1 now else store1) := by
      simp [middleware, hskip, hc, h80]
    refine ⟨by simp [servePage, hm, PageOutcome.status], fun hge => ?_⟩
    exact absurd hge h80

/-- Witness for C4: a `curl` user-agent (bot pattern +60, short UA +50, score
110 ≥ 80) gets the inert block with the same 200 status as a success. -/
theorem hardBlock_inert_witness :
    (servePage ⟨"/", "curl", "9.9.9.9"⟩ [] 0 false "a.js").1 = .inert 200 inertBlockBody ∧
    (servePage ⟨"/", "curl", "9.9.9.9"⟩ [] 0 false "a.js").1.status = 200 := by
  have h := hardBlock_inert ⟨"/", "curl", "9.9.9.9"⟩ [] 0 false "a.js" (by decide)
  exact ⟨(h.2 (by decide)).1, h.1⟩

/-- The `allowed` field is the negation of the `isBot` decision: true exactly
below 80. -/
theorem allowed_iff (t : ℚ) : (!isBotOf t) = true ↔ t < 80 := by
  simp [isBotOf, not_le]

/-- The four rungs of the verdict ladder, characterised by score intervals. -/
theorem verdict_ladder (t : ℚ) :
    (verdictOf t = "bot" ↔ 100 ≤ t) ∧
    (verdictOf t = "likely-bot" ↔ 80 ≤ t ∧ t < 100) ∧
    (verdictOf t = "suspicious" ↔ 50 ≤ t ∧ t < 80) ∧
    (verdictOf t = "human" ↔ t < 50) := by
  unfold verdictOf
  split_ifs with h1 h2 h3
  · exact ⟨iff_of_true rfl h1,
      iff_of_false (by decide) (fun h => absurd h1 (not_le.mpr h.2)),
      iff_of_false (by decide) (fun h => absurd h1 (not_le.mpr (by linarith [h.2]))),
      iff_of_false (by decide) (fun h => absurd h1 (not_le.mpr (by linarith)))⟩
  · exact ⟨iff_of_false (by decide) h1,
      iff_of_true rfl ⟨h2, not_le.mp h1⟩,
      iff_of_false (by decide) (fun h => absurd h2 (not_le.mpr h.2)),
      iff_of_false (by decide) (fun h => absurd h2 (not_le.mpr (by linarith)))⟩
  · exact ⟨iff_of_false (by decide) h1,
      iff_of_false (by decide) (fun h => h2 h.1),
      iff_of_true rfl ⟨h3, not_le.mp h2⟩,
      iff_of_false (by decide) (fun h => absurd h3 (not_le.mpr (by linarith)))⟩
  · exact ⟨iff_of_false (by decide) h1,
      iff_of_false (by decide) (fun h => h2 h.1),
      iff_of_false (by decide) (fun h => h3 h.1),
      iff_of_true rfl (by linarith [not_le.mp h3])⟩

/-- Inversion of a successful `/api/verify-human` run: the verdict string,
the allowed flag and the redirect field are all computed from the response's
own score. -/
theorem verifyHuman_ok_inv (md5 : String → String) (bs : Option Nat)
    (bsig : Option (List String)) (ip : String) (body : VerifyHumanBody)
    (st : List (String × FingerprintRecord)) (now : Int) (cfg sub : String)
    (sweep : Bool) (a : Bool) (v : String) (s : ℚ) (sg : List String)
    (r : Option String) (st' : List (String × FingerprintRecord))
    (h : verifyHuman md5 bs bsig ip body st now cfg sub sweep = (.ok a v s sg r, st')) :
    v = verdictOf s ∧ a = (!isBotOf s) ∧
    r = buildRedirect cfg sub body.urlParams (isBotOf s) := by
  rcases hf : body.fingerprint with _ | fp
  · exact absurd h (by simp [verifyHuman, hf])
  rcases hb : body.behaviors with _ | bv
  · exact absurd h (by simp [verifyHuman, hf, hb])
  rcases hobs : observeFingerprint st (md5 fp) ip now with ⟨st1, isN, ru⟩
  simp only [verifyHuman, hf, hb, hobs] at h
  rw [Prod.mk.injEq, VHResponse.ok.injEq] at h
  obtain ⟨⟨ha, hv, hs, hsg, hr⟩, hst⟩ := h
  subst hs
  exact ⟨hv.symm, ha.symm, hr.symm⟩

/-- The score a valid `/api/verify-human` request is answered with, in closed
form: server score, half the client score, the four ground-truth
check bonuses, and the fingerprint-reuse penalty. -/
theorem verifyHuman_score_eq (md5 : String → String) (bs : Option Nat)
    (bsig : Option (List String)) (ip fp : String) (bv : Unit)
    (cS : Option ℚ) (cs : Option Checks) (up : Option UrlParams)
    (st : List (String × FingerprintRecord)) (now : Int) (cfg sub : String)
    (sweep : Bool) :
    ((verifyHuman md5 bs bsig ip ⟨some fp, some bv, cS, cs, up⟩ st now cfg sub
        sweep).1).scoreField =
      some (((bs.getD 0 : Nat) : ℚ) + (cS.getD 0) * (1/2) +
        (if (cs.map Checks.cdp).getD false then 60 else 0) +
        (if (cs.map Checks.webdriver).getD false then 70 else 0) +
        (if (cs.map (fun c => decide (c.automationArtifacts.length > 0))).getD false
          then 65 else 0) +
        (if (cs.map (fun c => decide (c.headlessSignals.length ≥ 2))).getD false
          then 50 else 0) +
        (if (observeFingerprint st (md5 fp) ip now).2.2 then 20 else 0)) := by
  rcases hobs : observeFingerprint st (md5 fp) ip now with ⟨st1, isN, ru⟩
  simp only [verifyHuman, hobs, VHResponse.scoreField]

/-- The verdict a valid `/api/verify-human` request is answered with is the
ladder applied to that same closed-form score. -/
theorem verifyHuman_verdict_eq (md5 : String → String) (bs : Option Nat)
    (bsig : Option (List String)) (ip fp : String) (bv : Unit)
    (cS : Option ℚ) (cs : Option Checks) (up : Option UrlParams)
    (st : List (String × FingerprintRecord)) (now : Int) (cfg sub : String)
    (sweep : Bool) :
    ((verifyHuman md5 bs bsig ip ⟨some fp, some bv, cS, cs, up⟩ st now cfg sub
        sweep).1).verdictField =
      some (verdictOf (((bs.getD 0 : Nat) : ℚ) + (cS.getD 0) * (1/2) +
        (if (cs.map Checks.cdp).getD false then 60 else 0) +
        (if (cs.map Checks.webdriver).getD false then 70 else 0) +
        (if (cs.map (fun c => decide (c.automationArtifacts.length > 0))).getD false
          then 65 else 0) +
        (if (cs.map (fun c => decide (c.headlessSignals.length ≥ 2))).getD false
          then 50 else 0) +
        (if (observeFingerprint st (md5 fp) ip now).2.2 then 20 else 0))) := by
  rcases hobs : observeFingerprint st (md5 fp) ip now with ⟨st1, isN, ru⟩
  simp only [verifyHuman, hobs, VHResponse.verdictField]

/-- C1: for every final score the `/api/verify-human` handler answers with,
the verdict is `bot` iff score ≥ 100, `likely-bot` iff 80 ≤ score < 100,
`suspicious` iff 50 ≤ score < 80, `human` iff score < 50, and the `allowed`
field is true iff score < 80, independently of the finer verdict label. -/
theorem verifyHuman_verdict_thresholds (md5 : String → String) (bs : Option Nat)
    (bsig : Option (List String)) (ip : String) (body : VerifyHumanBody)
    (st : List (String × FingerprintRecord)) (now : Int) (cfg sub : String)
    (sweep : Bool) (a : Bool) (v : String) (s : ℚ) (sg : List String)
    (r : Option String) (st' : List (String × FingerprintRecord))
    (h : verifyHuman md5 bs bsig ip body st now cfg sub sweep = (.ok a v s sg r, st')) :
    (v = "bot" ↔ 100 ≤ s) ∧
    (v = "likely-bot" ↔ 80 ≤ s ∧ s < 100) ∧
    (v = "suspicious" ↔ 50 ≤ s ∧ s < 80) ∧
    (v = "human" ↔ s < 50) ∧
    (a = true ↔ s < 80) := by
  obtain ⟨hv, ha, -⟩ :=
    verifyHuman_ok_inv md5 bs bsig ip body st now cfg sub sweep a v s sg r st' h
  subst hv
  subst ha
  exact ⟨(verdict_ladder s).1, (verdict_ladder s).2.1, (verdict_ladder s).2.2.1,
    (verdict_ladder s).2.2.2, allowed_iff s⟩

/-- Witness for C1: a signal-free request is answered with score 0, verdict
`human`, and is allowed. -/
theorem verifyHuman_verdict_thresholds_witness :
    ("human" = "human" ↔ (0 : ℚ) < 50) ∧ (true = true ↔ (0 : ℚ) < 80) := by
  have h : verifyHuman (fun _ => "h") none none "ip"
      ⟨some "fp", some (), none, none, none⟩ [] 0 "" "" false =
      (.ok true "human" 0 [] none, [("h", ⟨"ip", 1, 0, 0⟩)]) := by
    norm_num [verifyHuman, observeFingerprint, lookupEntry, setEntry, isBotOf,
      verdictOf, buildRedirect, decide_eq_false_iff_not, Bool.not_eq_true']
  have hl := verifyHuman_verdict_thresholds (fun _ => "h") none none "ip"
    ⟨some "fp", some (), none, none, none⟩ [] 0 "" "" false true "human" 0 []
    none [("h", ⟨"ip", 1, 0, 0⟩)] h
  exact ⟨hl.2.2.2.1, hl.2.2.2.2⟩

/-- C2: a valid `/api/verify-human` request is scored as
`serverScore + clientScore × 0.5`, plus the fixed server-side re-scored
bonuses: +60 for `checks.cdp`, +70 for `checks.webdriver`, +65 for non-empty
`checks.automationArtifacts`, +50 for `checks.headlessSignals` of length ≥ 2,
plus the +20 fingerprint-reuse penalty when it applies; in particular
`checks.webdriver = true` with `clientScore = 0` and no server-side score
yields a final score of at least 70 and a verdict that is never `human`. -/
theorem verifyHuman_score_aggregation (md5 : String → String) (bs : Option Nat)
    (bsig : Option (List String)) (ip fp : String) (bv : Unit)
    (cS : Option ℚ) (cs : Option Checks) (up : Option UrlParams)
    (st : List (String × FingerprintRecord)) (now : Int) (cfg sub : String)
    (sweep : Bool) :
    (((verifyHuman md5 bs bsig ip ⟨some fp, some bv, cS, cs, up⟩ st now cfg sub
        sweep).1).scoreField =
      some (((bs.getD 0 : Nat) : ℚ) + (cS.getD 0) * (1/2) +
        (if (cs.map Checks.cdp).getD false then 60 else 0) +
        (if (cs.map Checks.webdriver).getD false then 70 else 0) +
        (if (cs.map (fun c => decide (c.automationArtifacts.length > 0))).getD false
          then 65 else 0) +
        (if (cs.map (fun c => decide (c.headlessSignals.length ≥ 2))).getD false
          then 50 else 0) +
        (if (observeFingerprint st (md5 fp) ip now).2.2 then 20 else 0))) ∧
    (∀ (md5' : String → String) (fp' ip' : String) (bv' : Unit)
        (up' : Option UrlParams) (st2 : List (String × FingerprintRecord))
        (now' : Int) (cfg' sub' : String) (sweep' : Bool),
      ((verifyHuman md5' none none ip'
          ⟨some fp', some bv', some 0, some ⟨false, true, [], []⟩, up'⟩ st2 now'
          cfg' sub' sweep').1).scoreField =
        some (70 + (if (observeFingerprint st2 (md5' fp') ip' now').2.2
          then 20 else 0)) ∧
      (∃ s', ((verifyHuman md5' none none ip'
          ⟨some fp', some bv', some 0, some ⟨false, true, [], []⟩, up'⟩ st2 now'
          cfg' sub' sweep').1).scoreField = some s' ∧ 70 ≤ s') ∧
      ((verifyHuman md5' none none ip'
          ⟨some fp', some bv', some 0, some ⟨false, true, [], []⟩, up'⟩ st2 now'
          cfg' sub' sweep').1).verdictField ≠ some "human") := by
  refine ⟨verifyHuman_score_eq md5 bs bsig ip fp bv cS cs up st now cfg sub sweep,
    ?_⟩
  intro md5' fp' ip' bv' up' st2 now' cfg' sub' sweep'
  have hscore := verifyHuman_score_eq md5' none none ip' fp' bv' (some 0)
    (some ⟨false, true, [], []⟩) up' st2 now' cfg' sub' sweep'
  have hverdict := verifyHuman_verdict_eq md5' none none ip' fp' bv' (some 0)
    (some ⟨false, true, [], []⟩) up' st2 now' cfg' sub' sweep'
  have hval : (((none : Option Nat).getD 0 : Nat) : ℚ) +
      ((some (0:ℚ)).getD 0) * (1/2) +
      (if ((some (⟨false, true, [], []⟩ : Checks)).map Checks.cdp).getD false
        then 60 else 0) +
      (if ((some (⟨false, true, [], []⟩ : Checks)).map Checks.webdriver).getD false
        then 70 else 0) +
      (if ((some (⟨false, true, [], []⟩ : Checks)).map
          (fun c => decide (c.automationArtifacts.length > 0))).getD false
        then 65 else 0) +
      (if ((some (⟨false, true, [], []⟩ : Checks)).map
          (fun c => decide (c.headlessSignals.length ≥ 2))).getD false
        then 50 else 0) +
      (if (observeFingerprint st2 (md5' fp') ip' now').2.2 then 20 else 0) =
      70 + (if (observeFingerprint st2 (md5' fp') ip' now').2.2 then 20 else 0) := by
    norm_num
  refine ⟨by rw [hscore, hval], ⟨_, by rw [hscore, hval], ?_⟩, ?_⟩
  · by_cases hru : (observeFingerprint st2 (md5' fp') ip' now').2.2 <;>
      simp [hru]
  · rw [hverdict, hval]
    intro heq
    have hhum := ((verdict_ladder
      (70 + (if (observeFingerprint st2 (md5' fp') ip' now').2.2
        then 20 else 0))).2.2.2).mp (Option.some.inj heq)
    by_cases hru : (observeFingerprint st2 (md5' fp') ip' now').2.2
    · rw [if_pos hru] at hhum
      linarith
    · rw [if_neg hru] at hhum
      linarith

/-- C3: for every `POST /api/verify-human`, the middleware returns early on
the `/api/` prefix, so the whole exchange equals the route handler run with
`req.botScore`/`req.botSignals` undefined and the rate store untouched; in
particular the aggregate score reduces to `clientScore × 0.5` plus the checks
bonuses and the fingerprint-reuse penalty — no server-side classifier signal
ever reaches this endpoint's verdict. -/
theorem verifyHuman_api_skips_middleware (md5 : String → String)
    (req : PageRequest) (body : VerifyHumanBody)
    (rs : List (String × List Int)) (fs : List (String × FingerprintRecord))
    (now : Int) (cfg sub : String) (sw1 sw2 : Bool)
    (hpath : strStarts req.path "/api/" = true) :
    (handleVerifyHumanPost md5 req body rs fs now cfg sub sw1 sw2 =
      (.api (verifyHuman md5 none none req.clientIP body fs now cfg sub sw2).1,
       rs, (verifyHuman md5 none none req.clientIP body fs now cfg sub sw2).2)) ∧
    (∀ (fp : String) (bv : Unit) (cS : Option ℚ) (cs : Option Checks)
        (up : Option UrlParams), body = ⟨some fp, some bv, cS, cs, up⟩ →
      (handleVerifyHumanPost md5 req body rs fs now cfg sub sw1 sw2).1.scoreField =
        some ((cS.getD 0) * (1/2) +
          (if (cs.map Checks.cdp).getD false then 60 else 0) +
          (if (cs.map Checks.webdriver).getD false then 70 else 0) +
          (if (cs.map (fun c => decide (c.automationArtifacts.length > 0))).getD false
            then 65 else 0) +
          (if (cs.map (fun c => decide (c.headlessSignals.length ≥ 2))).getD false
            then 50 else 0) +
          (if (observeFingerprint fs (md5 fp) req.clientIP now).2.2 then 20 else 0))) := by
  have hskip : middlewareSkips req.path = true := by
    simp [middlewareSkips, hpath]
  have hm : middleware req rs now sw1 = (.skipped, rs) := by
    simp [middleware, hskip]
  rcases hv : verifyHuman md5 none none req.clientIP body fs now cfg sub sw2
    with ⟨resp, fs'⟩
  have h1 : handleVerifyHumanPost md5 req body rs fs now cfg sub sw1 sw2 =
      (.api resp, rs, fs') := by
    simp [handleVerifyHumanPost, hm, hv]
  refine ⟨by rw [h1], ?_⟩
  intro fp bv cS cs up hbody
  subst hbody
  have h2 := verifyHuman_score_eq md5 none none req.clientIP fp bv cS cs up fs
    now cfg sub sw2
  rw [hv] at h2
  rw [h1]
  show resp.scoreField = _
  rw [h2]
  norm_num

/-- Witness for C3: even with a `curl` user-agent (which would score 110 on a
page route) the `/api/verify-human` exchange never sees a server-side score
and leaves the rate store alone. -/
theorem verifyHuman_api_skips_middleware_witness :
    handleVerifyHumanPost (fun _ => "h") ⟨"/api/verify-human", "curl", "ip"⟩
      ⟨some "fp", some (), none, none, none⟩ [("x", [5])] [] 0 "" "" false false =
      (.api (verifyHuman (fun _ => "h") none none "ip"
        ⟨some "fp", some (), none, none, none⟩ [] 0 "" "" false).1,
       [("x", [5])],
       (verifyHuman (fun _ => "h") none none "ip"
        ⟨some "fp", some (), none, none, none⟩ [] 0 "" "" false).2) :=
  (verifyHuman_api_skips_middleware (fun _ => "h")
    ⟨"/api/verify-human", "curl", "ip"⟩ ⟨some "fp", some (), none, none, none⟩
    [("x", [5])] [] 0 "" "" false false (by decide)).1

/-- C9: the handler's `redirectUrl` is exactly the redirect construction on
the configured target; a blocked verdict never yields a target; a malformed
configured target falls back to the raw configured string; and for the target
`https://example.com` with `urlParams.path = "/foo"` and a 12-hex-character
label the result is `https://<label>.example.com/foo`: host
`<label>.example.com`, path `/foo`. -/
theorem buildRedirect_spec (md5 : String → String) (bs : Option Nat)
    (bsig : Option (List String)) (ip : String) (body : VerifyHumanBody)
    (st : List (String × FingerprintRecord)) (now : Int) (cfg sub : String)
    (sweep : Bool) (a : Bool) (v : String) (s : ℚ) (sg : List String)
    (r : Option String) (st' : List (String × FingerprintRecord))
    (h : verifyHuman md5 bs bsig ip body st now cfg sub sweep = (.ok a v s sg r, st')) :
    (r = buildRedirect cfg sub body.urlParams (isBotOf s)) ∧
    (a = false → r = none) ∧
    (∀ (cfg' sub' : String) (up' : Option UrlParams),
      buildRedirect cfg' sub' up' true = none) ∧
    (cfg ≠ "" → parseURL cfg = none →
      buildRedirect cfg sub (some ⟨some "/foo", none⟩) false = some cfg) ∧
    (sub.length = 12 → (∀ ch ∈ sub.data, isHexDigitChar ch = true) →
      buildRedirect "https://example.com" sub (some ⟨some "/foo", none⟩) false =
        some (urlToString ⟨"https", sub ++ "." ++ "example.com", "/foo", ""⟩) ∧
      (cloakURL ⟨"https", "example.com", "/", ""⟩ sub
        (some ⟨some "/foo", none⟩)).host = sub ++ "." ++ "example.com" ∧
      (cloakURL ⟨"https", "example.com", "/", ""⟩ sub
        (some ⟨some "/foo", none⟩)).path = "/foo") := by
  obtain ⟨-, ha, hr⟩ :=
    verifyHuman_ok_inv md5 bs bsig ip body st now cfg sub sweep a v s sg r st' h
  refine ⟨hr, ?_, ?_, ?_, ?_⟩
  · intro haf
    rw [haf] at ha
    have hbot : isBotOf s = true := by
      cases hb : isBotOf s
      · rw [hb] at ha
        simp at ha
      · rfl
    rw [hr, hbot]
    simp [buildRedirect]
  · intro cfg' sub' up'
    simp [buildRedirect]
  · intro hne hparse
    simp [buildRedirect, hparse, hne]
  · intro hlen hhex
    have hp : parseURL "https://example.com" =
        some ⟨"https", "example.com", "/", ""⟩ := by decide
    have hcloak : cloakURL ⟨"https", "example.com", "/", ""⟩ sub
        (some ⟨some "/foo", none⟩) =
        ⟨"https", sub ++ "." ++ "example.com", "/foo", ""⟩ := by
      simp [cloakURL]
    refine ⟨?_, by rw [hcloak], by rw [hcloak]⟩
    rw [buildRedirect, if_pos ⟨rfl, by decide⟩, hp]
    simp only []
    rw [hcloak]

/-- Witness for C9: a concrete 12-hex label on the example target. -/
theorem buildRedirect_spec_witness :
    buildRedirect "https://example.com" "abcdef012345" (some ⟨some "/foo", none⟩)
      false = some "https://abcdef012345.example.com/foo" := by
  have h : verifyHuman (fun _ => "h") none none "ip"
      ⟨some "fp", some (), none, none, none⟩ [] 0 "" "" false =
      (.ok true "human" 0 [] none, [("h", ⟨"ip", 1, 0, 0⟩)]) := by
    norm_num [verifyHuman, observeFingerprint, lookupEntry, setEntry, isBotOf,
      verdictOf, buildRedirect, decide_eq_false_iff_not, Bool.not_eq_true']
  have hspec := (buildRedirect_spec (fun _ => "h") none none "ip"
    ⟨some "fp", some (), none, none, none⟩ [] 0 "" "abcdef012345" false true
    "human" 0 [] none [("h", ⟨"ip", 1, 0, 0⟩)] h).2.2.2.2 (by decide) (by decide)
  exact hspec.1.trans (by decide)

/-- C10: a `/api/verify-human` body missing `fingerprint` or `behaviors` is
answered 400 with the fingerprint ledger untouched (and, through the `/api/`
middleware skip, the rate store untouched as well); a `/api/verify-pow` body
with `challenge`, `nonce` or `timestamp` missing is answered 400 — and
`verify-pow` touches no store at all, in any case. -/
theorem missing_fields_reject (md5 : String → String) (bs : Option Nat)
    (bsig : Option (List String)) (ip : String) (body : VerifyHumanBody)
    (st : List (String × FingerprintRecord)) (now : Int) (cfg sub : String)
    (sweep : Bool)
    (hmiss : body.fingerprint = none ∨ body.behaviors = none) :
    (verifyHuman md5 bs bsig ip body st now cfg sub sweep =
      (.badRequest "Missing required data", st)) ∧
    ((verifyHuman md5 bs bsig ip body st now cfg sub sweep).1.status = 400) ∧
    (∀ (req : PageRequest) (rs : List (String × List Int)) (sw1 : Bool),
      strStarts req.path "/api/" = true →
      handleVerifyHumanPost md5 req body rs st now cfg sub sw1 sweep =
        (.api (.badRequest "Missing required data"), rs, st)) ∧
    (∀ (sha256hex : String → List Char) (pbody : PowBody) (now' : Int),
      pbody.challenge = none ∨ pbody.nonce = none ∨ pbody.timestamp = none →
      verifyPow sha256hex pbody now' = .badRequest "Missing required data" ∧
      (verifyPow sha256hex pbody now').status = 400) := by
  have hbadAll : ∀ (bs' : Option Nat) (bsig' : Option (List String))
      (ip' : String), verifyHuman md5 bs' bsig' ip' body st now cfg sub sweep =
      (.badRequest "Missing required data", st) := by
    intro bs' bsig' ip'
    rcases hmiss with hf | hb
    · rcases hb2 : body.behaviors with _ | bv <;> simp [verifyHuman, hf, hb2]
    · rcases hf2 : body.fingerprint with _ | fp <;> simp [verifyHuman, hf2, hb]
  have hbad := hbadAll bs bsig ip
  refine ⟨hbad, by rw [hbad]; rfl, ?_, ?_⟩
  · intro req rs sw1 hpath
    have h1 := (verifyHuman_api_skips_middleware md5 req body rs st now cfg sub
      sw1 sweep hpath).1
    rw [h1, hbadAll none none req.clientIP]
  · intro sha256hex pbody now' hpmiss
    have hbadp : verifyPow sha256hex pbody now' =
        .badRequest "Missing required data" := by
      rcases hpmiss with hc | hn | ht
      · rcases hn2 : pbody.nonce with _ | n <;>
          rcases ht2 : pbody.timestamp with _ | t <;>
          simp [verifyPow, hc, hn2, ht2]
      · rcases hc2 : pbody.challenge with _ | c <;>
          rcases ht2 : pbody.timestamp with _ | t <;>
          simp [verifyPow, hc2, hn, ht2]
      · rcases hc2 : pbody.challenge with _ | c <;>
          rcases hn2 : pbody.nonce with _ | n <;>
          simp [verifyPow, hc2, hn2, ht]
    exact ⟨hbadp, by rw [hbadp]; rfl⟩

/-- Witness for C10: a body without a fingerprint is rejected with the ledger
unchanged. -/
theorem missing_fields_reject_witness :
    verifyHuman (fun _ => "h") none none "ip" ⟨none, some (), none, none, none⟩
      [("k", ⟨"a", 1, 0, 0⟩)] 0 "" "" false =
      (.badRequest "Missing required data", [("k", ⟨"a", 1, 0, 0⟩)]) :=
  (missing_fields_reject (fun _ => "h") none none "ip"
    ⟨none, some (), none, none, none⟩ [("k", ⟨"a", 1, 0, 0⟩)] 0 "" "" false
    (Or.inl rfl)).1
